import Mathlib

set_option maxRecDepth 10000

/-!
Verification of the conversation structuring and analysis pipeline
(`gemini_conversation_extractor.py`, `cli_gemini_extractor.py`,
`enhanced_gemini_extractor.py`, `conversation_analyzer.py`).

Shallow embedding conventions:
* Python strings are Lean `String`s; operations (`strip`, `lower`,
  substring containment, …) are re-implemented over `String.data`
  (lists of characters) so that everything evaluates by kernel
  reduction.
* A DOM element, as the extractors observe it, is a record of its
  `text_content()`, `inner_html()`, `class` attribute and the text of
  its first timestamp descendant (when present).
* Python float division is modelled in `ℚ`; the analyzer only
  compares such quotients against the fixed thresholds 0.6, 0.3,
  1000 and 200, and every input exercised here is exact.
* `dict.get` with a default is modelled by total record fields.
-/

namespace GeminiCtx

/-- Python `str.isspace` characters relevant here (`\s` of `re`):
space, tab, newline, carriage return, vertical tab, form feed. -/
def pyIsSpace (c : Char) : Bool :=
  c = ' ' || c = '\t' || c = '\n' || c = '\r' || c.toNat = 11 || c.toNat = 12

/-- Python `str.strip()`. -/
def pyStrip (s : String) : String :=
  ⟨(((s.data.dropWhile pyIsSpace).reverse.dropWhile pyIsSpace).reverse)⟩

/-- Python `str.lower()` (ASCII, which is all the source tables use). -/
def pyLower (s : String) : String := ⟨s.data.map Char.toLower⟩

/-- `pat` is a prefix of `cs` (character-exact). -/
def startsWithSeq : List Char → List Char → Bool
  | _, [] => true
  | [], _ :: _ => false
  | c :: cs, p :: ps => c = p && startsWithSeq cs ps

/-- Python `pat in s` on character lists. -/
def containsSeq : List Char → List Char → Bool
  | [], pat => startsWithSeq [] pat
  | c :: rest, pat => startsWithSeq (c :: rest) pat || containsSeq rest pat

/-- Python `pat in s`. -/
def strContains (s pat : String) : Bool := containsSeq s.data pat.data

/-- Python `s.endswith(pat)`. -/
def strEndsWith (s pat : String) : Bool :=
  startsWithSeq s.data.reverse pat.data.reverse

/-! ## The heuristic extractor
(`gemini_conversation_extractor.extract_conversation_content`, lines
621–716; `cli_gemini_extractor.extract_conversation` shares the same
selector-commitment and classification logic.) -/

/-- A DOM element as the heuristic extractor observes it. -/
structure Element where
  /-- `element.text_content()` (`""` models Python `None`). -/
  text : String
  /-- `element.inner_html()`. -/
  html : String
  /-- the `class` attribute (`""` when absent). -/
  classes : String
  /-- text of the first timestamp descendant, when one exists. -/
  tsText : Option String
  deriving DecidableEq

/-- the `['user', 'human', 'you']` indicator list. -/
def user_indicators : List String := ["user", "human", "you"]

/-- the `['ai', 'assistant', 'gemini', 'bot']` indicator list. -/
def assistant_indicators : List String := ["ai", "assistant", "gemini", "bot"]

/-- `any(ind in element_html.lower() or ind in element_classes.lower() ...)`
over the user indicators. -/
def has_user_indicator (e : Element) : Bool :=
  user_indicators.any fun ind =>
    strContains (pyLower e.html) ind || strContains (pyLower e.classes) ind

/-- the same test over the assistant indicators. -/
def has_assistant_indicator (e : Element) : Bool :=
  assistant_indicators.any fun ind =>
    strContains (pyLower e.html) ind || strContains (pyLower e.classes) ind

/-- The sender classification block (lines 675–693 of
`gemini_conversation_extractor.py`): lexical user indicators, then
lexical assistant indicators, then the ends-with-`?`-or-short fallback. -/
def classify_message (e : Element) : String :=
  if has_user_indicator e then "user"
  else if has_assistant_indicator e then "ai"
  else if strEndsWith (pyStrip e.text) "?" || (pyStrip e.text).length < 100 then "user"
  else "ai"

/-- A message record built by the heuristic extractor
(`index`/`type`/`content`/`timestamp` keys of `message_data`). -/
structure GMessage where
  index : Nat
  msg_type : String
  content : String
  timestamp : String
  deriving DecidableEq

/-- `message_data` for element `e` at enumeration index `i`. -/
def mkGeminiMessage (i : Nat) (e : Element) : GMessage :=
  { index := i
    msg_type := classify_message e
    content := pyStrip e.text
    timestamp := (e.tsText.map pyStrip).getD "" }

/-- The selector loop (lines 636–644): commit to the first selector
whose `query_selector_all` result has more than one element
(`if elements and len(elements) > 1`). -/
def select_message_elements : List (List Element) → List Element
  | [] => []
  | es :: rest => if 1 < es.length then es else select_message_elements rest

/-- The main-content fallback (lines 647–666): divs of the main
content area whose stripped text is longer than 20 characters. -/
def main_content_fallback (divs : List Element) : List Element :=
  divs.filter fun d => 20 < (pyStrip d.text).length

/-- The extraction loop of `extract_conversation_content`:
`strategyResults` holds each selector's `query_selector_all` result in
priority order, `mainDivs` the candidate divs of the main-content
fallback.  Elements whose stripped text is shorter than 10 characters
are skipped (`continue`), the rest are classified and collected.
All branches are total: the Python loop swallows per-element errors. -/
def extract_conversation_content
    (strategyResults : List (List Element)) (mainDivs : List Element) : List GMessage :=
  let chosen := select_message_elements strategyResults
  let elems := if chosen.isEmpty then main_content_fallback mainDivs else chosen
  elems.enum.filterMap fun p =>
    if (pyStrip p.2.text).length < 10 then none else some (mkGeminiMessage p.1 p.2)

/-- Modelled from the spec (for comparison with the code, not from the
source): §4.1's strategy chain returns the fragments of the *first*
strategy yielding at least one fragment above the 10-character
threshold; if none does, it returns the empty list. -/
def spec_chain_extract (strategyResults : List (List Element)) : List GMessage :=
  match strategyResults.find? (fun es => es.any fun e => 10 ≤ (pyStrip e.text).length) with
  | none => []
  | some es =>
      es.enum.filterMap fun p =>
        if (pyStrip p.2.text).length < 10 then none else some (mkGeminiMessage p.1 p.2)

/-! ## Content normalizer
(`enhanced_gemini_extractor.html_to_markdown`, lines 128–155, and
`clean_response_content`, lines 117–126.)  The markitdown branch calls
an external library and is out of scope; the in-repository fallback is
`re.sub(r'<[^>]+>', '', content)` followed by `re.sub(r'\s+', ' ',
content)` and `strip()`. -/

/-- After a `<`, skip to just past the first `>`, requiring at least
one interleaving non-`>` character (the regex is `<[^>]+>`); `none`
when the tag regex does not match at this `<`. -/
def drop_tag : List Char → Option (List Char)
  | [] => none
  | c :: rest => if c = '>' then none else until_gt rest
where
  until_gt : List Char → Option (List Char)
    | [] => none
    | c :: rest => if c = '>' then some rest else until_gt rest

/-- `re.sub(r'<[^>]+>', '', content)`: left-to-right, non-overlapping
removal of tag-shaped spans.  `fuel` bounds the recursion; each step
consumes at least one character, so `cs.length` suffices. -/
def strip_tags_aux : Nat → List Char → List Char
  | 0, _ => []
  | _ + 1, [] => []
  | fuel + 1, c :: rest =>
    if c = '<' then
      match drop_tag rest with
      | some rest' => strip_tags_aux fuel rest'
      | none => c :: strip_tags_aux fuel rest
    else c :: strip_tags_aux fuel rest

/-- `re.sub(r'<[^>]+>', '', content)` on a string. -/
def strip_tags (s : String) : String := ⟨strip_tags_aux s.data.length s.data⟩

/-- `re.sub(r'\s+', ' ', content)`: every maximal whitespace run
becomes one space.  `inRun` records whether the previous character was
part of a whitespace run already emitted as a space. -/
def collapse_ws_aux : Bool → List Char → List Char
  | _, [] => []
  | inRun, c :: rest =>
    if pyIsSpace c then
      if inRun then collapse_ws_aux true rest
      else ' ' :: collapse_ws_aux true rest
    else c :: collapse_ws_aux false rest

/-- `re.sub(r'\s+', ' ', content)`. -/
def collapse_ws (cs : List Char) : List Char := collapse_ws_aux false cs

/-- The fallback branch of `html_to_markdown` (lines 149–155): strip
tags, collapse whitespace, strip the ends. -/
def html_to_markdown_fallback (s : String) : String :=
  pyStrip ⟨collapse_ws (strip_tags s).data⟩

/-- `clean_response_content` (lines 117–126): the `script`/`style`
decomposition happens on the parsed tree and is modelled as part of
producing the input markup; the remaining work is `html_to_markdown`,
embedded here by its in-repository fallback branch. -/
def clean_response_content (s : String) : String := html_to_markdown_fallback s

/-! ## Structured parser
(`enhanced_gemini_extractor.parse_conversation_structure`, lines
49–86, with its helpers `extract_user_message`, lines 88–99,
`extract_model_response`, lines 101–115, and `extract_timestamp`,
lines 157–196.) -/

/-- A `user-query` element: the stripped texts of its
`p.query-text-line` descendants, in document order. -/
structure UserQuery where
  query_lines : List String
  deriving DecidableEq

/-- A `model-response` element: the markup of its
`message-content div.markdown` descendant (after `script`/`style`
decomposition), `none` when either level is missing. -/
structure ModelResponse where
  markdown_html : Option String
  deriving DecidableEq

/-- A `div.conversation-container` as the parser observes it:
`id` attribute, optional `user-query` child, optional
`model-response` child, and the parsed timestamp of its first
timestamp descendant when one parses (`extract_timestamp` falls back
to the current wall-clock time otherwise). -/
structure Container where
  id : String
  user_query : Option UserQuery
  model_response : Option ModelResponse
  timestamp : Option String
  deriving DecidableEq

/-- A structured message (`id`/`sender`/`content`/`timestamp`/`type`
keys). -/
structure SMessage where
  id : String
  sender : String
  content : String
  timestamp : String
  msg_type : String
  deriving DecidableEq

/-- `extract_user_message`: keep the non-empty line texts, join with
newlines, `None` when nothing remains. -/
def extract_user_message (uq : UserQuery) : Option String :=
  let ts := uq.query_lines.filter fun t => !(t = "")
  if ts.isEmpty then none else some (String.intercalate "\n" ts)

/-- `extract_model_response`: `None` without a
`message-content div.markdown`, otherwise the cleaned content. -/
def extract_model_response (mr : ModelResponse) : Option String :=
  match mr.markdown_html with
  | none => none
  | some h => some (clean_response_content h)

/-- `extract_timestamp`: the parsed timestamp of the container when
found, else the current time (`now`). -/
def extract_timestamp (c : Container) (now : String) : String :=
  c.timestamp.getD now

/-- The user half of the `parse_conversation_structure` loop body
(lines 60–71); the `if query_text:` truthiness test also rejects the
empty string. -/
def user_part (now : String) (c : Container) : List SMessage :=
  match c.user_query with
  | none => []
  | some uq =>
    match extract_user_message uq with
    | none => []
    | some t =>
      if t = "" then []
      else [{ id := c.id, sender := "user", content := t,
              timestamp := extract_timestamp c now, msg_type := "user_message" }]

/-- The model half of the loop body (lines 73–84). -/
def model_part (now : String) (c : Container) : List SMessage :=
  match c.model_response with
  | none => []
  | some mr =>
    match extract_model_response mr with
    | none => []
    | some t =>
      if t = "" then []
      else [{ id := c.id, sender := "assistant", content := t,
              timestamp := extract_timestamp c now, msg_type := "assistant_message" }]

/-- `parse_conversation_structure` over the list of
`div.conversation-container` elements of the snapshot; `now` is the
wall-clock fallback of `extract_timestamp`.  Total: it never raises,
an empty container list yields an empty message list. -/
def parse_conversation_structure (now : String) (containers : List Container) : List SMessage :=
  containers.flatMap fun c => user_part now c ++ model_part now c

/-- The persisted record of `save_structured_conversation` (lines
274–281): `message_count` is set to the exact length of `messages`. -/
structure StructuredConversation where
  title : String
  url : String
  extracted_at : String
  message_count : Nat
  messages : List SMessage
  deriving DecidableEq

/-- `structured_data` as built in `save_structured_conversation`. -/
def structured_conversation (title url extracted_at : String)
    (msgs : List SMessage) : StructuredConversation :=
  { title := title, url := url, extracted_at := extracted_at,
    message_count := msgs.length, messages := msgs }

/-! ## Conversation analyzer
(`conversation_analyzer.py`.)  `analyze_conversation` parses a
persisted conversation JSON file; the parsed record is the input of
the embedding. -/

/-- A persisted message as the analyzer reads it (`sender`, `content`,
`timestamp` keys; `.get` defaults are modelled by total fields). -/
structure PyMessage where
  sender : String
  content : String
  timestamp : String
  deriving DecidableEq

/-- A persisted conversation record (`title`, `url`, `extracted_at`,
`message_count`, `messages`). -/
structure ConversationData where
  title : String
  url : String
  extracted_at : String
  message_count : Nat
  messages : List PyMessage
  deriving DecidableEq

/-- drop everything up to and including the first occurrence of `pat`;
`none` when `pat` does not occur. -/
def find_seq (pat : List Char) : List Char → Option (List Char)
  | [] => if pat.isEmpty then some [] else none
  | c :: rest =>
    if startsWithSeq (c :: rest) pat then some ((c :: rest).drop pat.length)
    else find_seq pat rest

/-- `len(re.findall(openD [\s\S]*? closeD, s))`: non-overlapping,
non-greedy delimited spans, scanning left to right.  Each step
consumes at least one character, so `fuel = length` suffices. -/
def count_delimited_aux (openD closeD : List Char) : Nat → List Char → Nat
  | 0, _ => 0
  | fuel + 1, cs =>
    match cs with
    | [] => 0
    | _ :: rest =>
      if startsWithSeq cs openD then
        match find_seq closeD (cs.drop openD.length) with
        | some rest' => 1 + count_delimited_aux openD closeD fuel rest'
        | none => 0
      else count_delimited_aux openD closeD fuel rest

/-- `len(re.findall(r'`[^`]+`', s))`: inline code spans. -/
def count_inline_code_aux : Nat → List Char → Nat
  | 0, _ => 0
  | fuel + 1, cs =>
    match cs with
    | [] => 0
    | c :: rest =>
      if c = '`' then
        match rest.dropWhile (fun d => !(d = '`')) with
        | '`' :: after =>
          if (rest.takeWhile fun d => !(d = '`')).isEmpty then
            count_inline_code_aux fuel rest
          else 1 + count_inline_code_aux fuel after
        | _ => 0
      else count_inline_code_aux fuel rest

/-- The code-block detection loop of `analyze_conversation` (lines
62–70): the three patterns are counted independently and summed. -/
def count_code_blocks (content : String) : Nat :=
  let cs := content.data
  let fence := ['`', '`', '`']
  count_delimited_aux fence fence cs.length cs
    + count_inline_code_aux cs.length cs
    + count_delimited_aux "<code>".data "</code>".data cs.length cs

/-- `re` word characters (`\w`, ASCII): letters, digits, underscore. -/
def is_word_char (c : Char) : Bool := c.isAlpha || c.isDigit || c = '_'

/-- whether the optional character on one side of a position is a word
character (`none` = string edge = non-word). -/
def word_opt : Option Char → Bool
  | some c => is_word_char c
  | none => false

/-- `\b`: the two sides disagree on word-ness. -/
def word_boundary (o1 o2 : Option Char) : Bool := word_opt o1 != word_opt o2

/-- case-insensitive prefix match of pattern `pat` against `cs`. -/
def matches_ci : List Char → List Char → Bool
  | _, [] => true
  | [], _ :: _ => false
  | c :: cs, p :: ps => (c.toLower = p.toLower) && matches_ci cs ps

/-- try each alternative of a `\b(?:A|B|…)\b` pattern at the current
position, in order; returns the matched source characters and the
remainder. -/
def try_alts (prev : Option Char) (cs : List Char) : List String → Option (List Char × List Char)
  | [] => none
  | alt :: more =>
    let pl := alt.data
    let m := cs.take pl.length
    let rest := cs.drop pl.length
    if matches_ci cs pl && word_boundary prev m.head? && word_boundary m.getLast? rest.head?
    then some (m, rest)
    else try_alts prev cs more

/-- `re.findall(pattern, content, re.IGNORECASE)` for one
`\b(?:…|…)\b` pattern, upper-casing each match as the source does;
`prev` is the character before the scan position. -/
def scan_terms_aux (alts : List String) : Nat → Option Char → List Char → List String
  | 0, _, _ => []
  | fuel + 1, prev, cs =>
    match cs with
    | [] => []
    | c :: rest =>
      match try_alts prev cs alts with
      | some (m, rest') =>
          (⟨m.map Char.toUpper⟩ : String) :: scan_terms_aux alts fuel m.getLast? rest'
      | none => scan_terms_aux alts fuel (some c) rest

/-- The eight technical-term patterns of `extract_technical_terms`
(lines 97–106), as ordered alternative lists. -/
def technical_patterns : List (List String) :=
  [ ["API", "SDK", "CLI", "JWT", "OAuth", "HTTP", "HTTPS", "REST", "GraphQL",
     "JSON", "XML", "YAML", "SQL", "NoSQL"],
    ["Docker", "Kubernetes", "AWS", "GCP", "Azure", "GitHub", "GitLab", "CI/CD"],
    ["Python", "JavaScript", "TypeScript", "Java", "C++", "Rust", "Go", "Ruby", "PHP"],
    ["React", "Vue", "Angular", "Node.js", "Express", "Django", "Flask", "FastAPI"],
    ["MongoDB", "PostgreSQL", "MySQL", "Redis", "Elasticsearch", "Kafka"],
    ["Playwright", "Selenium", "Puppeteer", "Cypress"],
    ["AI", "ML", "LLM", "NLP", "GPT", "BERT", "Transformer"],
    ["IoC", "DI", "MVC", "MVP", "MVVM", "SOLID", "DRY", "KISS"] ]

/-- `extract_technical_terms` (lines 95–113). -/
def extract_technical_terms (content : String) : List String :=
  (technical_patterns.map fun alts =>
    scan_terms_aux alts content.data.length none content.data).flatten

/-- The topic keyword table of `extract_topics` (lines 117–130), in
source (insertion) order. -/
def topic_keywords : List (String × List String) :=
  [ ("authentication", ["auth", "login", "token", "jwt", "oauth", "credential"]),
    ("automation", ["playwright", "selenium", "automation", "script", "bot"]),
    ("architecture", ["architecture", "design", "pattern", "structure", "component"]),
    ("deployment", ["deploy", "deployment", "docker", "kubernetes", "container"]),
    ("database", ["database", "sql", "nosql", "mongodb", "postgresql", "redis"]),
    ("api", ["api", "endpoint", "rest", "graphql", "service", "microservice"]),
    ("frontend", ["frontend", "ui", "react", "vue", "angular", "javascript"]),
    ("backend", ["backend", "server", "node", "python", "django", "flask"]),
    ("testing", ["test", "testing", "unit", "integration", "e2e", "cypress"]),
    ("security", ["security", "encryption", "ssl", "tls", "vulnerability"]),
    ("performance", ["performance", "optimization", "cache", "speed", "latency"]),
    ("monitoring", ["monitoring", "logging", "metrics", "observability", "alert"]) ]

/-- `extract_topics` (lines 115–139): OR semantics over the keywords. -/
def extract_topics (content : String) : List String :=
  topic_keywords.filterMap fun p =>
    if p.2.any (fun k => strContains (pyLower content) k) then some p.1 else none

/-- one entry of `conversation_flow` (lines 48–52). -/
structure FlowEntry where
  sender : String
  length : Nat
  timestamp : String
  deriving DecidableEq

/-- The `analysis` dict of `analyze_conversation`.  The
`median`/`max`/`min` keys are only inserted when the conversation has
messages, hence `Option`; `avg_message_length` is initialised to 0. -/
structure Analysis where
  title : String
  url : String
  extracted_at : String
  total_messages : Nat
  user_messages : Nat
  assistant_messages : Nat
  message_lengths : List Nat
  topics_mentioned : List String
  code_blocks : Nat
  questions_asked : Nat
  avg_message_length : ℚ
  conversation_flow : List FlowEntry
  technical_terms : List String
  key_insights : List String
  median_message_length : Option ℚ
  max_message_length : Option Nat
  min_message_length : Option Nat
  unique_technical_terms : List String
  unique_topics : List String
  deriving DecidableEq

/-- question counting (lines 54–58): only user messages contribute,
`content.count("?")` when a question mark occurs. -/
def message_question_count (m : PyMessage) : Nat :=
  if m.sender == "user" then
    if m.content.data.contains '?' then m.content.data.count '?' else 0
  else 0

/-- `statistics.mean` of message lengths, in `ℚ`. -/
def pyMean (l : List Nat) : ℚ := (l.sum : ℚ) / (l.length : ℚ)

/-- ascending stable insertion (for `statistics.median`'s sort). -/
def insert_asc (x : Nat) : List Nat → List Nat
  | [] => [x]
  | y :: ys => if x ≤ y then x :: y :: ys else y :: insert_asc x ys

/-- ascending sort. -/
def sort_asc : List Nat → List Nat
  | [] => []
  | x :: xs => insert_asc x (sort_asc xs)

/-- `statistics.median`: middle element for odd lengths, mean of the
two middles for even lengths. -/
def pyMedian (l : List Nat) : ℚ :=
  let s := sort_asc l
  let n := s.length
  if n % 2 = 1 then ((s.getD (n / 2) 0 : Nat) : ℚ)
  else (((s.getD (n / 2 - 1) 0 : Nat) : ℚ) + ((s.getD (n / 2) 0 : Nat) : ℚ)) / 2

/-- Python `max` of a non-empty list (0 for `[]`, unused there). -/
def pyListMax : List Nat → Nat
  | [] => 0
  | x :: xs => xs.foldl Nat.max x

/-- Python `min` of a non-empty list (0 for `[]`, unused there). -/
def pyListMin : List Nat → Nat
  | [] => 0
  | x :: xs => xs.foldl Nat.min x

/-- `list(set(xs))` for the `unique_*` fields.  Within one process the
iteration order of a Python set is a deterministic function of the
inserted elements; it is modelled as first-insertion order. -/
def first_seen_aux (seen : List String) : List String → List String
  | [] => []
  | x :: xs =>
    if seen.contains x then first_seen_aux seen xs
    else x :: first_seen_aux (x :: seen) xs

/-- deduplication keeping the first occurrence of each element. -/
def first_seen (l : List String) : List String := first_seen_aux [] l

/-- `generate_insights` (lines 141–185): the five threshold rule
groups, evaluated in fixed order against the partially built analysis
(its `key_insights` field is still empty and is not read). -/
def generate_insights (a : Analysis) : List String :=
  let l1 : List String :=
    if 0 < a.total_messages then
      let r : ℚ := (a.user_messages : ℚ) / (a.total_messages : ℚ)
      if 6 / 10 < r then ["User-driven conversation with many questions"]
      else if r < 3 / 10 then ["Assistant-heavy conversation with detailed responses"]
      else ["Balanced conversation between user and assistant"]
    else []
  let l2 : List String :=
    if 10 < a.unique_technical_terms.length then
      ["Highly technical conversation with diverse technologies"]
    else if 5 < a.unique_technical_terms.length then ["Moderately technical discussion"]
    else ["General or non-technical conversation"]
  let l3 : List String :=
    if 5 < a.code_blocks then ["Code-heavy conversation with examples and implementations"]
    else if 0 < a.code_blocks then ["Contains code examples and technical details"]
    else []
  let l4 : List String :=
    if 5 < a.questions_asked then ["Exploratory conversation with many questions"] else []
  let l5 : List String :=
    if 1000 < a.avg_message_length then ["Detailed conversation with comprehensive responses"]
    else if a.avg_message_length < 200 then ["Concise conversation with brief exchanges"]
    else []
  l1 ++ l2 ++ l3 ++ l4 ++ l5

/-- The analyzer object (`__init__`, lines 15–16).  `extracts_dir` is
the only instance state and `analyze_conversation` never reads it. -/
structure ConversationAnalyzer where
  extracts_dir : String
  deriving DecidableEq

/-- the `analysis` dict just before `generate_insights` runs. -/
def analysis_base (data : ConversationData) : Analysis :=
  let msgs := data.messages
  let lengths := msgs.map fun m => m.content.length
  let terms := (msgs.map fun m => extract_technical_terms m.content).flatten
  let topics := (msgs.map fun m => extract_topics m.content).flatten
  { title := data.title
    url := data.url
    extracted_at := data.extracted_at
    total_messages := data.message_count
    user_messages := msgs.countP fun m => m.sender == "user"
    assistant_messages := msgs.countP fun m => m.sender == "assistant"
    message_lengths := lengths
    topics_mentioned := topics
    code_blocks := (msgs.map fun m => count_code_blocks m.content).sum
    questions_asked := (msgs.map message_question_count).sum
    avg_message_length := if lengths.isEmpty then 0 else pyMean lengths
    conversation_flow := msgs.map fun m => ⟨m.sender, m.content.length, m.timestamp⟩
    technical_terms := terms
    key_insights := []
    median_message_length := if lengths.isEmpty then none else some (pyMedian lengths)
    max_message_length := if lengths.isEmpty then none else some (pyListMax lengths)
    min_message_length := if lengths.isEmpty then none else some (pyListMin lengths)
    unique_technical_terms := first_seen terms
    unique_topics := first_seen topics }

/-- `analyze_conversation` (lines 18–93) on the parsed conversation
record: a pure function of its input — the method reads no instance or
module state (`_self.extracts_dir` is untouched). -/
def ConversationAnalyzer.analyze_conversation
    (_self : ConversationAnalyzer) (data : ConversationData) : Analysis :=
  let base := analysis_base data
  { base with key_insights := generate_insights base }

/-! ## Corpus aggregator
(`conversation_analyzer.generate_summary_report`, lines 220–256.)
`Counter(xs)` keeps its keys in first-occurrence order;
`most_common(n)` sorts them by count, descending, stably (equal counts
keep insertion order) and truncates to `n`. -/

/-- the concatenated `unique_technical_terms` lists (lines 230–237). -/
def all_unique_terms (analyses : List Analysis) : List String :=
  (analyses.map Analysis.unique_technical_terms).flatten

/-- the concatenated `unique_topics` lists. -/
def all_unique_topics (analyses : List Analysis) : List String :=
  (analyses.map Analysis.unique_topics).flatten

/-- the concatenated `key_insights` lists. -/
def all_insights (analyses : List Analysis) : List String :=
  (analyses.map Analysis.key_insights).flatten

/-- `sum(a["total_messages"] for a in analyses)`. -/
def sum_total_messages (analyses : List Analysis) : Nat :=
  (analyses.map Analysis.total_messages).sum

/-- `sum(a["user_messages"] for a in analyses)`. -/
def sum_user_messages (analyses : List Analysis) : Nat :=
  (analyses.map Analysis.user_messages).sum

/-- `sum(a["assistant_messages"] for a in analyses)`. -/
def sum_assistant_messages (analyses : List Analysis) : Nat :=
  (analyses.map Analysis.assistant_messages).sum

/-- the `Counter`, as key/count pairs in first-insertion order. -/
def count_pairs (l : List String) : List (String × Nat) :=
  (first_seen l).map fun k => (k, l.count k)

/-- insert into a descending-by-count list, before the first entry of
equal or smaller count (so earlier input entries precede later equal
ones — Python's `sorted` is stable). -/
def insert_desc (x : String × Nat) : List (String × Nat) → List (String × Nat)
  | [] => [x]
  | y :: ys => if y.2 ≤ x.2 then x :: y :: ys else y :: insert_desc x ys

/-- stable descending-by-count sort. -/
def sort_desc : List (String × Nat) → List (String × Nat)
  | [] => []
  | x :: xs => insert_desc x (sort_desc xs)

/-- `Counter(l).most_common(n)`. -/
def most_common (l : List String) (n : Nat) : List (String × Nat) :=
  (sort_desc (count_pairs l)).take n

/-- the populated summary dict (lines 244–254). -/
structure Summary where
  total_conversations : Nat
  total_messages : Nat
  total_user_messages : Nat
  total_assistant_messages : Nat
  avg_messages_per_conversation : ℚ
  most_common_technical_terms : List (String × Nat)
  most_common_topics : List (String × Nat)
  most_common_insights : List (String × Nat)
  conversation_titles : List String
  deriving DecidableEq

/-- `generate_summary_report`: `none` models the bare `{}` returned
for an empty input (lines 222–223), `some` the populated dict. -/
def generate_summary_report (analyses : List Analysis) : Option Summary :=
  if analyses.isEmpty then none
  else some
    { total_conversations := analyses.length
      total_messages := sum_total_messages analyses
      total_user_messages := sum_user_messages analyses
      total_assistant_messages := sum_assistant_messages analyses
      avg_messages_per_conversation :=
        if 0 < analyses.length then (sum_total_messages analyses : ℚ) / (analyses.length : ℚ)
        else 0
      most_common_technical_terms := most_common (all_unique_terms analyses) 10
      most_common_topics := most_common (all_unique_topics analyses) 10
      most_common_insights := most_common (all_insights analyses) 5
      conversation_titles := analyses.map Analysis.title }

/-- Modelled from the spec (for comparison with the code, not from the
source): the all-zero, empty-table corpus summary that §4.8 prescribes
for an empty input list. -/
def spec_empty_summary : Summary :=
  { total_conversations := 0, total_messages := 0, total_user_messages := 0,
    total_assistant_messages := 0, avg_messages_per_conversation := 0,
    most_common_technical_terms := [], most_common_topics := [],
    most_common_insights := [], conversation_titles := [] }

/-! ## Helper lemmas -/

/-- the messages whose sender is neither `"user"` nor `"assistant"`
(the analyzer counts neither branch for them). -/
def unknown_count (msgs : List PyMessage) : Nat :=
  msgs.countP fun m => !(m.sender == "user" || m.sender == "assistant")

theorem countP_sender_partition (msgs : List PyMessage) :
    msgs.countP (fun m => m.sender == "user")
      + msgs.countP (fun m => m.sender == "assistant")
      + unknown_count msgs = msgs.length := by
  induction msgs with
  | nil => rfl
  | cons m l ih =>
    simp only [unknown_count, List.countP_cons, List.length_cons] at ih ⊢
    by_cases hu : m.sender = "user"
    · have hbu : (m.sender == "user") = true := beq_iff_eq.mpr hu
      have hba : (m.sender == "assistant") = false := by rw [hu]; rfl
      simp only [hbu, hba, Bool.true_or, Bool.not_true, if_true, if_false,
        Bool.false_eq_true]
      omega
    · have hbu : (m.sender == "user") = false := beq_eq_false_iff_ne.mpr hu
      by_cases ha : m.sender = "assistant"
      · have hba : (m.sender == "assistant") = true := beq_iff_eq.mpr ha
        simp only [hbu, hba, Bool.false_or, Bool.not_true, if_true, if_false,
          Bool.false_eq_true]
        omega
      · have hba : (m.sender == "assistant") = false := beq_eq_false_iff_ne.mpr ha
        simp only [hbu, hba, Bool.false_or, Bool.not_false, if_true, if_false,
          Bool.false_eq_true]
        omega

theorem mem_user_part {now : String} {c : Container} {m : SMessage}
    (h : m ∈ user_part now c) : m.sender = "user" := by
  unfold user_part at h
  split at h
  · simp at h
  · split at h
    · simp at h
    · split at h
      · simp at h
      · rw [List.mem_singleton.mp h]

theorem mem_model_part {now : String} {c : Container} {m : SMessage}
    (h : m ∈ model_part now c) : m.sender = "assistant" := by
  unfold model_part at h
  split at h
  · simp at h
  · split at h
    · simp at h
    · split at h
      · simp at h
      · rw [List.mem_singleton.mp h]

theorem select_message_elements_head {es : List Element} (rest : List (List Element))
    (h : 1 < es.length) : select_message_elements (es :: rest) = es := by
  simp [select_message_elements, h]

/-! ## Claims -/

/-- `e_short` has 5 characters of stripped text (below the
10-character threshold), `e_long` has 50. -/
def e_short : Element := ⟨"short", "", "", none⟩

/-- a 50-character fragment with no sender indicators. -/
def e_long : Element := ⟨String.mk (List.replicate 50 'x'), "", "", none⟩

/-- C1 (counterexample): on a snapshot where the first selector finds
two elements that are both below the 10-character threshold and the
second selector finds two elements well above it, the code commits to
the first selector and extracts nothing, while the chain described by
the claim would return the second strategy's two fragments. -/
theorem strategy_chain_counterexample :
    extract_conversation_content [[e_short, e_short], [e_long, e_long]] [] = [] ∧
    (spec_chain_extract [[e_short, e_short], [e_long, e_long]]).length = 2 := by
  exact ⟨by decide, by decide⟩

/-- C1 (amended): the selector loop commits to the first strategy that
returns more than one element, regardless of the elements' text
lengths — later strategies and the main-content fallback never
influence the result — and the 10-character threshold is applied per
element only after that commitment, so a committed strategy whose
matches are all below the threshold yields an empty extraction instead
of falling through. -/
theorem strategy_chain_commitment (es : List Element) (rest rest' : List (List Element))
    (fb fb' : List Element) (h : 1 < es.length) :
    extract_conversation_content (es :: rest) fb
      = extract_conversation_content (es :: rest') fb' ∧
    ((∀ e ∈ es, (pyStrip e.text).length < 10) →
      extract_conversation_content (es :: rest) fb = []) := by
  have hne : es.isEmpty = false := by
    cases es with
    | nil => simp at h
    | cons a l => rfl
  constructor
  · simp only [extract_conversation_content, select_message_elements_head _ h, hne,
      Bool.false_eq_true, if_false]
  · intro hall
    simp only [extract_conversation_content, select_message_elements_head _ h, hne,
      Bool.false_eq_true, if_false]
    rw [List.filterMap_eq_nil_iff]
    exact List.forall_mem_enum.mpr fun i hi => by
      simp only [if_pos (hall _ (es.getElem_mem hi))]

/-- C1 (witness for the amended theorem): at the counterexample input,
replacing the later strategies changes nothing and the extraction is
empty. -/
theorem strategy_chain_commitment_witness :
    extract_conversation_content [[e_short, e_short], [e_long, e_long]] []
      = extract_conversation_content [[e_short, e_short]] [] ∧
    extract_conversation_content [[e_short, e_short], [e_long, e_long]] [] = [] := by
  have h := strategy_chain_commitment [e_short, e_short] [[e_long, e_long]] [] [] []
    (by decide)
  exact ⟨h.1, h.2 (by decide)⟩

/-- C2: for a fragment with no lexical user or assistant indicator in
its markup or class names, the classifier assigns `"user"` exactly
when the stripped content ends with `?` or is shorter than 100
characters, and `"ai"` (the assistant label) otherwise. -/
theorem classifier_fallback_rule (e : Element)
    (hu : has_user_indicator e = false) (ha : has_assistant_indicator e = false) :
    (classify_message e = "user" ↔
      (strEndsWith (pyStrip e.text) "?" = true ∨ (pyStrip e.text).length < 100)) ∧
    (classify_message e = "ai" ↔
      ¬(strEndsWith (pyStrip e.text) "?" = true ∨ (pyStrip e.text).length < 100)) := by
  simp only [classify_message, hu, ha, Bool.false_eq_true, if_false]
  by_cases hc : strEndsWith (pyStrip e.text) "?" = true ∨ (pyStrip e.text).length < 100
  · have hb : (strEndsWith (pyStrip e.text) "?" || decide ((pyStrip e.text).length < 100))
        = true := by
      rcases hc with h' | h' <;> simp [h']
    simp [hb, hc]
  · have hb : (strEndsWith (pyStrip e.text) "?" || decide ((pyStrip e.text).length < 100))
        = false := by
      push_neg at hc
      simp [Bool.eq_false_iff.mpr hc.1, hc.2]
    push_neg at hc
    simp [hb, hc.1, hc.2]

/-- a 400-character fragment without `?` and without indicators. -/
def e_long_answer : Element := ⟨String.mk (List.replicate 400 'a'), "", "", none⟩

/-- the 7-character fragment `"Thanks!"` without indicators. -/
def e_thanks : Element := ⟨"Thanks!", "", "", none⟩

/-- C2 (witness): the 400-character hint-free fragment is classified
`"ai"`, the 7-character `"Thanks!"` fragment `"user"`. -/
theorem classifier_fallback_rule_witness :
    classify_message e_long_answer = "ai" ∧ classify_message e_thanks = "user" := by
  have h1 := classifier_fallback_rule e_long_answer (by decide) (by decide)
  have h2 := classifier_fallback_rule e_thanks (by decide) (by decide)
  exact ⟨h1.2.mpr (by decide), h2.1.mpr (by decide)⟩

/-- C3: hints are checked before the fallback.  A fragment with a user
indicator is always classified `"user"` and one with an assistant
indicator (and no user indicator) always `"ai"`, whatever the content
length or ending; and in the structured parser every message's sender
is fixed by its container type (`user-query` vs `model-response`), the
length fallback is never consulted. -/
theorem classifier_hint_priority :
    (∀ e : Element, has_user_indicator e = true → classify_message e = "user") ∧
    (∀ e : Element, has_user_indicator e = false → has_assistant_indicator e = true →
      classify_message e = "ai") ∧
    (∀ (now : String) (cs : List Container) (m : SMessage),
      m ∈ parse_conversation_structure now cs →
      m.sender = "user" ∨ m.sender = "assistant") := by
  refine ⟨fun e h => by simp [classify_message, h],
    fun e hu ha => by simp [classify_message, hu, ha], ?_⟩
  intro now cs m hm
  simp only [parse_conversation_structure, List.mem_flatMap] at hm
  obtain ⟨c, -, hm⟩ := hm
  rcases List.mem_append.mp hm with h | h
  · exact Or.inl (mem_user_part h)
  · exact Or.inr (mem_model_part h)

/-- a 400-character fragment whose markup carries a user hint; the
fallback rule alone would classify it `"ai"`. -/
def e_hinted_long : Element :=
  ⟨String.mk (List.replicate 400 'a'), "user-query bubble", "", none⟩

/-- a short fragment whose markup carries an assistant hint; the
fallback rule alone would classify it `"user"`. -/
def e_hinted_ai : Element := ⟨"short", "gemini-response card", "", none⟩

/-- C3 (witness): the long hint-marked user fragment is still
classified `"user"`, the short assistant-marked one still `"ai"`. -/
theorem classifier_hint_priority_witness :
    classify_message e_hinted_long = "user" ∧ classify_message e_hinted_ai = "ai" := by
  obtain ⟨h1, h2, -⟩ := classifier_hint_priority
  exact ⟨h1 e_hinted_long (by decide), h2 e_hinted_ai (by decide) (by decide)⟩

/-- C4: for every conversation record satisfying the data-model
invariant `message_count = len(messages)`, the analyzer's total equals
its user count plus its assistant count plus the number of messages
classified neither way. -/
theorem analysis_message_count_partition (self : ConversationAnalyzer)
    (d : ConversationData) (h : d.message_count = d.messages.length) :
    (self.analyze_conversation d).total_messages =
      (self.analyze_conversation d).user_messages
        + (self.analyze_conversation d).assistant_messages
        + unknown_count d.messages := by
  simp only [ConversationAnalyzer.analyze_conversation, analysis_base]
  rw [h]
  exact (countP_sender_partition d.messages).symm

/-- the analyzer object used for the C4 witness. -/
def analyzer_c4 : ConversationAnalyzer := ⟨"gemini_extracts"⟩

/-- a three-message conversation: one user, one assistant, one
unclassified sender. -/
def conversation_c4 : ConversationData :=
  ⟨"Repo as IOC", "https://gemini.google.com/app/868452c61789e8d8", "2024-01-01", 3,
   [⟨"user", "What is IoC?", "t1"⟩,
    ⟨"assistant", "IoC is inversion of control.", "t2"⟩,
    ⟨"other", "hm", "t3"⟩]⟩

/-- C4 (witness): the partition identity at a concrete conversation. -/
theorem analysis_message_count_partition_witness :
    (analyzer_c4.analyze_conversation conversation_c4).total_messages =
      (analyzer_c4.analyze_conversation conversation_c4).user_messages
        + (analyzer_c4.analyze_conversation conversation_c4).assistant_messages
        + unknown_count conversation_c4.messages :=
  analysis_message_count_partition analyzer_c4 conversation_c4 (by rfl)

/-- C7: when no strategy finds any message container, the structured
parser returns the empty message list and the persisted record has
`message_count = 0`; the embedding is a total function, mirroring that
the Python code treats this case as a normal return, not an error. -/
theorem parse_no_containers (now title url extracted_at : String)
    (cs : List Container) (h : cs = []) :
    parse_conversation_structure now cs = [] ∧
    (structured_conversation title url extracted_at
      (parse_conversation_structure now cs)).message_count = 0 := by
  subst h
  exact ⟨rfl, rfl⟩

/-- C7 (witness): the empty snapshot. -/
theorem parse_no_containers_witness :
    parse_conversation_structure "2024-01-01T00:00:00" [] = [] ∧
    (structured_conversation "t" "u" "2024-01-01"
      (parse_conversation_structure "2024-01-01T00:00:00" [])).message_count = 0 :=
  parse_no_containers "2024-01-01T00:00:00" "t" "u" "2024-01-01" [] rfl

/-- C9: the analyzer is a pure function of the conversation record —
repeated runs, with any analyzer state (its only instance field,
`extracts_dir`, is never read), produce identical output. -/
theorem analyze_conversation_deterministic
    (a1 a2 : ConversationAnalyzer) (d : ConversationData) :
    a1.analyze_conversation d = a2.analyze_conversation d := rfl

/-- C5 (counterexample): aggregating the empty list yields the bare
`{}` record (modelled `none`), not the zero-count, empty-table summary
the claim describes. -/
theorem summary_empty_counterexample :
    generate_summary_report [] = none ∧
    ¬(generate_summary_report [] = some spec_empty_summary) := by
  exact ⟨rfl, by simp [generate_summary_report]⟩

/-- C5 (amended): aggregating an empty list is a defined state — the
function totally returns the empty record `{}` (and only for the empty
list; every non-empty input produces a populated summary), it does not
fail; but the count fields are absent from the result rather than
present with value zero. -/
theorem summary_empty_defined :
    generate_summary_report [] = none ∧
    ∀ (a : Analysis) (as : List Analysis), ∃ s : Summary,
      generate_summary_report (a :: as) = some s := by
  exact ⟨rfl, fun a as => ⟨_, rfl⟩⟩

/-- C6 (counterexample): analyzing the zero-message conversation does
not leave every collection empty — `key_insights` holds the two
unconditional fallback insights. -/
theorem analysis_empty_counterexample :
    (ConversationAnalyzer.analyze_conversation ⟨"gemini_extracts"⟩
        ⟨"t", "u", "e", 0, []⟩).key_insights
      = ["General or non-technical conversation",
         "Concise conversation with brief exchanges"] ∧
    ¬((ConversationAnalyzer.analyze_conversation ⟨"gemini_extracts"⟩
        ⟨"t", "u", "e", 0, []⟩).key_insights = []) := by
  exact ⟨by decide, by decide⟩

/-- C6 (amended): analyzing a conversation with zero messages returns,
without raising (the embedding is total), an `Analysis` whose numeric
fields are 0, whose length-statistics keys are absent
(`median`/`max`/`min` are only inserted for non-empty conversations),
whose term and topic collections are empty — and whose insight list
consists of exactly the two fixed fallback insights, not of nothing. -/
theorem analysis_empty_fields (self : ConversationAnalyzer) (d : ConversationData)
    (h1 : d.messages = []) (h2 : d.message_count = 0) :
    (self.analyze_conversation d).total_messages = 0 ∧
    (self.analyze_conversation d).user_messages = 0 ∧
    (self.analyze_conversation d).assistant_messages = 0 ∧
    (self.analyze_conversation d).message_lengths = [] ∧
    (self.analyze_conversation d).code_blocks = 0 ∧
    (self.analyze_conversation d).questions_asked = 0 ∧
    (self.analyze_conversation d).avg_message_length = 0 ∧
    (self.analyze_conversation d).median_message_length = none ∧
    (self.analyze_conversation d).max_message_length = none ∧
    (self.analyze_conversation d).min_message_length = none ∧
    (self.analyze_conversation d).technical_terms = [] ∧
    (self.analyze_conversation d).topics_mentioned = [] ∧
    (self.analyze_conversation d).unique_technical_terms = [] ∧
    (self.analyze_conversation d).unique_topics = [] ∧
    (self.analyze_conversation d).key_insights =
      ["General or non-technical conversation",
       "Concise conversation with brief exchanges"] := by
  obtain ⟨t, u, ex, mc, ms⟩ := d
  dsimp only at h1 h2
  subst h1
  subst h2
  exact ⟨rfl, rfl, rfl, rfl, rfl, rfl, rfl, rfl, rfl, rfl, rfl, rfl, rfl, rfl, rfl⟩

/-- C6 (witness for the amended theorem): the empty conversation. -/
theorem analysis_empty_fields_witness :
    ((⟨"gemini_extracts"⟩ : ConversationAnalyzer).analyze_conversation
        ⟨"t", "u", "e", 0, []⟩).total_messages = 0 ∧
    ((⟨"gemini_extracts"⟩ : ConversationAnalyzer).analyze_conversation
        ⟨"t", "u", "e", 0, []⟩).median_message_length = none ∧
    ((⟨"gemini_extracts"⟩ : ConversationAnalyzer).analyze_conversation
        ⟨"t", "u", "e", 0, []⟩).key_insights =
      ["General or non-technical conversation",
       "Concise conversation with brief exchanges"] := by
  obtain ⟨c1, c2, c3, c4, c5, c6, c7, c8, c9, c10, c11, c12, c13, c14, c15⟩ :=
    analysis_empty_fields ⟨"gemini_extracts"⟩ ⟨"t", "u", "e", 0, []⟩ rfl rfl
  exact ⟨c1, c8, c15⟩

/-! ## C10 helpers: fixed points of the fallback normalizer -/

/-- the head character, if any, is not whitespace. -/
def head_non_space : List Char → Bool
  | [] => true
  | d :: _ => !pyIsSpace d

/-- every whitespace character is a plain space not followed by more
whitespace (i.e. the string is already whitespace-collapsed). -/
def ws_single : List Char → Bool
  | [] => true
  | c :: rest => (!pyIsSpace c || (c = ' ' && head_non_space rest)) && ws_single rest

theorem collapse_ws_aux_fixed : ∀ cs : List Char, ws_single cs = true →
    collapse_ws_aux false cs = cs ∧
      (head_non_space cs = true → collapse_ws_aux true cs = cs) := by
  intro cs
  induction cs with
  | nil => exact fun _ => ⟨rfl, fun _ => rfl⟩
  | cons c rest ih =>
    intro hw
    rw [ws_single, Bool.and_eq_true] at hw
    obtain ⟨h1, h2⟩ := hw
    obtain ⟨ihf, iht⟩ := ih h2
    by_cases hc : pyIsSpace c = true
    · have : (c = ' ' && head_non_space rest) = true := by
        rcases Bool.or_eq_true_iff.mp h1 with h | h
        · rw [hc] at h; exact absurd h (by decide)
        · exact h
      rw [Bool.and_eq_true] at this
      obtain ⟨hsp, hhd⟩ := this
      have hsp' : c = ' ' := of_decide_eq_true hsp
      constructor
      · subst hsp'
        simp [collapse_ws_aux, hc, iht hhd]
      · intro hhead
        rw [head_non_space, hc] at hhead
        exact absurd hhead (by decide)
    · have hc' : pyIsSpace c = false := Bool.eq_false_iff.mpr hc
      constructor
      · simp [collapse_ws_aux, hc', ihf]
      · intro _
        simp [collapse_ws_aux, hc', ihf]

theorem strip_tags_aux_fixed : ∀ (fuel : Nat) (cs : List Char),
    cs.length ≤ fuel → cs.contains '<' = false → strip_tags_aux fuel cs = cs := by
  intro fuel
  induction fuel with
  | zero =>
    intro cs hle _
    cases cs with
    | nil => rfl
    | cons c rest => simp at hle
  | succ n ih =>
    intro cs hle hco
    cases cs with
    | nil => rfl
    | cons c rest =>
      rw [List.contains_cons, Bool.or_eq_false_iff] at hco
      obtain ⟨hc, hrest⟩ := hco
      have hcne : ¬(c = '<') := by
        intro h
        rw [h] at hc
        exact absurd hc (by decide)
      simp only [strip_tags_aux, if_neg hcne]
      rw [ih rest (by simpa using Nat.le_of_succ_le_succ (by simpa using hle)) hrest]

theorem pyStrip_fixed (s : String) (h1 : head_non_space s.data = true)
    (h2 : head_non_space s.data.reverse = true) : pyStrip s = s := by
  have drop_id : ∀ cs : List Char, head_non_space cs = true →
      cs.dropWhile pyIsSpace = cs := by
    intro cs h
    cases cs with
    | nil => rfl
    | cons c rest =>
      rw [head_non_space] at h
      rw [List.dropWhile_cons, if_neg]
      simp only [Bool.not_eq_true'] at h
      simp [h]
  show (⟨((s.data.dropWhile pyIsSpace).reverse.dropWhile pyIsSpace).reverse⟩ : String) = s
  rw [drop_id s.data h1, drop_id s.data.reverse h2, List.reverse_reverse]

/-- C10 (counterexample): the fallback normalizer collapses the double
space inside the fenced block of ```` ```a  b``` ````; the fenced text
`"a  b"` is not preserved verbatim. -/
theorem normalizer_counterexample :
    html_to_markdown_fallback "```a  b```" = "```a b```" ∧
    strContains (html_to_markdown_fallback "```a  b```") "a  b" = false := by
  exact ⟨by decide, by decide⟩

/-- C10 (amended): the in-repository fallback normalizer collapses
every whitespace run — inside fenced code blocks as well as outside —
to a single space (after removing tag spans and stripping the ends).
Content whose whitespace is already single spaces, contains no `<`,
and has non-whitespace ends is preserved verbatim; in particular the
fenced text of ```` ```def foo(): pass``` ```` survives unchanged. -/
theorem normalizer_fixed_point (s : String)
    (h1 : s.data.contains '<' = false)
    (h2 : ws_single s.data = true)
    (h3 : head_non_space s.data = true)
    (h4 : head_non_space s.data.reverse = true) :
    html_to_markdown_fallback s = s := by
  have hst : strip_tags s = s := by
    show (⟨strip_tags_aux s.data.length s.data⟩ : String) = s
    rw [strip_tags_aux_fixed s.data.length s.data le_rfl h1]
  rw [html_to_markdown_fallback, hst]
  have hcw : collapse_ws s.data = s.data :=
    (collapse_ws_aux_fixed s.data h2).1
  rw [collapse_ws] at hcw
  show pyStrip ⟨collapse_ws_aux false s.data⟩ = s
  rw [hcw]
  exact pyStrip_fixed s h3 h4

/-- C10 (witness for the amended theorem): the claim's fenced
scenario. -/
theorem normalizer_fixed_point_witness :
    html_to_markdown_fallback "```def foo(): pass```" = "```def foo(): pass```" :=
  normalizer_fixed_point "```def foo(): pass```"
    (by decide) (by decide) (by decide) (by decide)

/-! ## C8 helpers: stability of the `most_common` sort -/

theorem insert_desc_split (x : String × Nat) (l : List (String × Nat)) :
    ∃ l₁ l₂, l = l₁ ++ l₂ ∧ insert_desc x l = l₁ ++ x :: l₂ := by
  induction l with
  | nil => exact ⟨[], [], rfl, rfl⟩
  | cons y ys ih =>
    by_cases h : y.2 ≤ x.2
    · exact ⟨[], y :: ys, rfl, by simp [insert_desc, h]⟩
    · obtain ⟨l₁, l₂, he, hi⟩ := ih
      exact ⟨y :: l₁, l₂, by simp [he], by simp [insert_desc, h, hi]⟩

theorem sublist_insert_desc {s : List (String × Nat)} (x : String × Nat)
    (l : List (String × Nat)) (h : List.Sublist s l) :
    List.Sublist s (insert_desc x l) := by
  obtain ⟨l₁, l₂, he, hi⟩ := insert_desc_split x l
  rw [hi]
  subst he
  exact h.trans ((List.sublist_cons_self x l₂).append_left l₁)

theorem mem_sort_desc {b : String × Nat} : ∀ {l : List (String × Nat)},
    b ∈ l → b ∈ sort_desc l := by
  intro l
  induction l with
  | nil => simp
  | cons x xs ih =>
    intro h
    simp only [sort_desc]
    obtain ⟨l₁, l₂, he, hi⟩ := insert_desc_split x (sort_desc xs)
    rw [hi]
    rcases List.mem_cons.mp h with rfl | h'
    · simp
    · have := ih h'
      rw [he] at this
      rcases List.mem_append.mp this with h'' | h''
      · exact List.mem_append.mpr (Or.inl h'')
      · exact List.mem_append.mpr (Or.inr (List.mem_cons_of_mem x h''))

theorem insert_desc_before {x b : String × Nat} : ∀ {l : List (String × Nat)},
    b ∈ l → b.2 ≤ x.2 → List.Sublist [x, b] (insert_desc x l) := by
  intro l
  induction l with
  | nil => intro h _; simp at h
  | cons y ys ih =>
    intro hb hle
    simp only [insert_desc]
    by_cases h : y.2 ≤ x.2
    · rw [if_pos h]
      exact List.cons_sublist_cons.mpr (List.singleton_sublist.mpr hb)
    · rw [if_neg h]
      rcases List.mem_cons.mp hb with rfl | hb'
      · exact absurd hle h
      · exact (ih hb' hle).cons y

theorem sort_desc_stable {a b : String × Nat} : ∀ {l : List (String × Nat)},
    List.Sublist [a, b] l → b.2 ≤ a.2 → List.Sublist [a, b] (sort_desc l) := by
  intro l
  induction l with
  | nil => intro h _; cases h
  | cons x xs ih =>
    intro h hle
    simp only [sort_desc]
    cases h with
    | cons _ h' => exact sublist_insert_desc x _ (ih h' hle)
    | cons₂ _ h' =>
      exact insert_desc_before (mem_sort_desc (List.singleton_sublist.mp h')) hle

/-- C8: swapping the two aggregated analyses leaves every frequency
count (terms, topics, insights) and every summed total of the summary
unchanged; and in the `most_common` table, entries of equal count
appear in first-seen order — the input pair order only shifts those
ties, never the counts. -/
theorem aggregation_commutative (a1 a2 : Analysis) :
    (∀ t, (all_unique_terms [a1, a2]).count t = (all_unique_terms [a2, a1]).count t) ∧
    (∀ t, (all_unique_topics [a1, a2]).count t = (all_unique_topics [a2, a1]).count t) ∧
    (∀ t, (all_insights [a1, a2]).count t = (all_insights [a2, a1]).count t) ∧
    sum_total_messages [a1, a2] = sum_total_messages [a2, a1] ∧
    sum_user_messages [a1, a2] = sum_user_messages [a2, a1] ∧
    sum_assistant_messages [a1, a2] = sum_assistant_messages [a2, a1] ∧
    (generate_summary_report [a1, a2]).map Summary.total_messages
      = (generate_summary_report [a2, a1]).map Summary.total_messages ∧
    (generate_summary_report [a1, a2]).map Summary.total_user_messages
      = (generate_summary_report [a2, a1]).map Summary.total_user_messages ∧
    (generate_summary_report [a1, a2]).map Summary.total_assistant_messages
      = (generate_summary_report [a2, a1]).map Summary.total_assistant_messages ∧
    (generate_summary_report [a1, a2]).map Summary.avg_messages_per_conversation
      = (generate_summary_report [a2, a1]).map Summary.avg_messages_per_conversation ∧
    (∀ (l : List String) (k1 k2 : String) (c : Nat),
      List.Sublist [(k1, c), (k2, c)] (count_pairs l) →
      List.Sublist [(k1, c), (k2, c)] (sort_desc (count_pairs l))) := by
  have hsum : ∀ f : Analysis → Nat,
      ([a1, a2].map f).sum = ([a2, a1].map f).sum := by
    intro f
    simp [Nat.add_comm]
  refine ⟨?_, ?_, ?_, hsum _, hsum _, hsum _, ?_, ?_, ?_, ?_, ?_⟩
  · intro t
    simp [all_unique_terms, List.count_append, Nat.add_comm]
  · intro t
    simp [all_unique_topics, List.count_append, Nat.add_comm]
  · intro t
    simp [all_insights, List.count_append, Nat.add_comm]
  · simp [generate_summary_report, sum_total_messages, Nat.add_comm]
  · simp [generate_summary_report, sum_user_messages, Nat.add_comm]
  · simp [generate_summary_report, sum_assistant_messages, Nat.add_comm]
  · simp [generate_summary_report, sum_total_messages, Nat.add_comm]
  · intro l k1 k2 c h
    exact sort_desc_stable h le_rfl

/-- an analysis with the unique terms PYTHON and DOCKER (other fields
irrelevant to aggregation are zeroed). -/
def analysis_ex1 : Analysis :=
  ⟨"conv1", "", "", 2, 1, 1, [], [], 0, 0, 0, [], [], [], none, none, none,
   ["PYTHON", "DOCKER"], []⟩

/-- an analysis with the single unique term PYTHON. -/
def analysis_ex2 : Analysis :=
  ⟨"conv2", "", "", 1, 1, 0, [], [], 0, 0, 0, [], [], [], none, none, none,
   ["PYTHON"], []⟩

/-- C8 (witness): the PYTHON/DOCKER scenario — counts agree under the
swap and the tied entries of the sorted table keep first-seen order. -/
theorem aggregation_commutative_witness :
    (all_unique_terms [analysis_ex1, analysis_ex2]).count "PYTHON"
      = (all_unique_terms [analysis_ex2, analysis_ex1]).count "PYTHON" ∧
    sum_total_messages [analysis_ex1, analysis_ex2]
      = sum_total_messages [analysis_ex2, analysis_ex1] ∧
    List.Sublist [("PYTHON", 1), ("DOCKER", 1)]
      (sort_desc (count_pairs ["PYTHON", "DOCKER"])) := by
  obtain ⟨h1, h2, h3, h4, h5, h6, h7, h8, h9, h10, hstab⟩ :=
    aggregation_commutative analysis_ex1 analysis_ex2
  refine ⟨h1 "PYTHON", h4, hstab ["PYTHON", "DOCKER"] "PYTHON" "DOCKER" 1 ?_⟩
  have hcp : count_pairs ["PYTHON", "DOCKER"] = [("PYTHON", 1), ("DOCKER", 1)] := by
    decide
  rw [hcp]

end GeminiCtx
